/-
Verification of the satellite ground-station coordination system.

Shallow embedding of the relevant program parts:
  * Client : the device lifecycle state machine (src/client/states.py)
  * Maint  : the device maintenance / connectivity watchdog loop (src/client/main.py)
  * Mqtt   : the device-side track-command handler (src/client/mqtt_client.py)
  * Server : the hub-side station registry (src/app/server/antenna_manager.py,
             message routing from src/app/server/mqtt_client.py)
  * Prop   : the propagator-state cache (src/app/satellite/propagator.py)
  * PP     : pass prediction and the visible-now query
             (src/app/satellite/pass_prediction.py), with SGP4 propagation +
             elevation abstracted as an oracle `Rat -> Option Rat`
  * AzEl   : the real-valued azimuth/elevation computation
             (src/app/satellite/pass_prediction.py, src/client/tracking.py)

Machine floats are idealised as exact rationals (for the discrete scanning and
registry logic) or reals (for the trigonometric azimuth/elevation claims);
timestamps are rationals (seconds).
-/
import Mathlib

namespace Client

/-- Lifecycle states of a ground-station device (class State, states.py:11-20). -/
inductive State where
  | boot
  | initializing
  | gps_wait
  | gps_acquired
  | ready
  | tracking
  | degraded
  | error
  | shutdown
deriving DecidableEq, Repr

/-- Allowed transition table (TRANSITIONS, states.py:23-33).  The Python dict of
sets is modelled as a function to lists; only membership is ever used. -/
def TRANSITIONS : State → List State
  | State.boot          => [State.initializing, State.error, State.shutdown]
  | State.initializing  => [State.gps_wait, State.ready, State.error, State.shutdown]
  | State.gps_wait      => [State.gps_acquired, State.error, State.shutdown]
  | State.gps_acquired  => [State.ready, State.error, State.shutdown]
  | State.ready         => [State.tracking, State.gps_wait, State.degraded, State.error, State.shutdown]
  | State.tracking      => [State.ready, State.error, State.shutdown]
  | State.degraded      => [State.ready, State.error, State.shutdown]
  | State.error         => [State.ready, State.gps_wait, State.initializing, State.shutdown]
  | State.shutdown      => []

/-- Mutable fields of StateManager (states.py:38-43); the lock and the callback
list are concurrency plumbing with no effect on the recorded fields. -/
structure StateManager where
  state : State
  error_detail : String
  state_since : ℚ
deriving DecidableEq, Repr

/-- StateManager.transition (states.py:64-80).  `now` stands for the
`time.time()` call.  Returns the updated manager and the boolean result; a
request outside the table leaves the manager untouched and returns false. -/
def transition (m : StateManager) (new_state : State) (error_detail : String)
    (now : ℚ) : StateManager × Bool :=
  if new_state ∈ TRANSITIONS m.state then
    ({ state := new_state,
       error_detail := if new_state = State.error then error_detail else "",
       state_since := now }, true)
  else
    (m, false)

end Client

namespace Maint

open Client

/-- Loop-local timer variables of the maintenance loop (main.py:205-208). -/
structure Timers where
  disconnect_start : ℚ
  last_reconnect_attempt : ℚ
deriving DecidableEq, Repr

/-- Outcome of one MQTT-connectivity-watchdog tick: updated timers, the state
transition requested this tick (if any), and whether a forced reconnect was
attempted. -/
structure WatchdogResult where
  timers : Timers
  request : Option State
  force_reconnect : Bool
deriving DecidableEq, Repr

/-- The MQTT connectivity watchdog section of the maintenance loop
(main.py:216-245), as a pure function of the link flag, the current state, the
clock and the loop timers. -/
def mqtt_watchdog (connected : Bool) (cur : State) (now : ℚ) (tm : Timers) :
    WatchdogResult :=
  if !connected then
    let ds := if tm.disconnect_start = 0 then now else tm.disconnect_start
    let elapsed := now - ds
    if cur = State.ready ∧ elapsed > 120 then
      ⟨⟨ds, tm.last_reconnect_attempt⟩, some State.degraded, false⟩
    else if cur = State.tracking then
      -- tracking is protected: reset the disconnect timer, maybe force reconnect
      if now - tm.last_reconnect_attempt > 30 then
        ⟨⟨now, now⟩, none, true⟩
      else
        ⟨⟨now, tm.last_reconnect_attempt⟩, none, false⟩
    else if cur = State.degraded ∧ now - tm.last_reconnect_attempt > 30 then
      ⟨⟨ds, now⟩, none, true⟩
    else
      ⟨⟨ds, tm.last_reconnect_attempt⟩, none, false⟩
  else
    if tm.disconnect_start > 0 then
      if cur = State.degraded then
        ⟨⟨0, 0⟩, some State.ready, false⟩
      else
        ⟨⟨0, 0⟩, none, false⟩
    else
      ⟨tm, none, false⟩

/-- The transition requested by the maintenance loop's exception handler
(main.py:279-282): degrade unless already degraded or shutting down. -/
def exception_request (cur : State) : Option State :=
  if cur = State.degraded ∨ cur = State.shutdown then none else some State.degraded

end Maint

/-- An OMM orbital-element record (the JSON data contract; fields read by
omm_to_satrec, propagator.py:69-110, and by the pass/visibility code).
Floats are idealised as rationals. -/
structure OMM where
  NORAD_CAT_ID : ℤ
  OBJECT_NAME : Option String := none
  EPOCH : String := ""
  BSTAR : ℚ := 0
  MEAN_MOTION_DOT : ℚ := 0
  MEAN_MOTION_DDOT : ℚ := 0
  ECCENTRICITY : ℚ := 0
  ARG_OF_PERICENTER : ℚ := 0
  INCLINATION : ℚ := 0
  MEAN_ANOMALY : ℚ := 0
  MEAN_MOTION : ℚ := 0
  RA_OF_ASC_NODE : ℚ := 0
deriving DecidableEq, Repr

namespace Propagator

/-- A propagator built by sgp4init from one element set (omm_to_satrec,
propagator.py:69-110).  sgp4init is a deterministic function of the record, so
the propagator state is modelled as the record it was built from. -/
structure Satrec where
  elements : OMM
deriving DecidableEq, Repr

/-- omm_to_satrec (propagator.py:69-110): build a propagator from the record. -/
def omm_to_satrec (omm : OMM) : Satrec := ⟨omm⟩

/-- The module-level _satrec_cache (propagator.py:16), keyed by catalog id. -/
def Cache : Type := ℤ → Option Satrec

/-- get_satrec (propagator.py:24-29): return the cached propagator for the
record's catalog id, building and inserting it on a miss.  The updated cache is
returned explicitly (state passing for the module-global dict). -/
def get_satrec (cache : Cache) (omm : OMM) : Satrec × Cache :=
  match cache omm.NORAD_CAT_ID with
  | some s => (s, cache)
  | none =>
      let s := omm_to_satrec omm
      (s, fun k => if k = omm.NORAD_CAT_ID then some s else cache k)

/-- clear_satrec_cache (propagator.py:32-38): empty the cache. -/
def clear_satrec_cache (_cache : Cache) : Cache := fun _ => none

/-- build_satrec_array (propagator.py:41-66): populate the cache for a list of
records via get_satrec (only the per-id cache effect is modelled; the
vectorised array is a pure performance artifact). -/
def build_satrec_array (cache : Cache) (sats : List OMM) : Cache :=
  sats.foldl (fun c omm => (get_satrec c omm).2) cache

/-- on_satellites_changed (globe_app.py:573-583): the only code path that
replaces loaded element sets; it clears the stale cache and repopulates it from
the new records. -/
def on_satellites_changed (cache : Cache) (sats : List OMM) : Cache :=
  build_satrec_array (clear_satrec_cache cache) sats

end Propagator

namespace Mqtt

open Client

/-- A GPS reading as returned by the gps reader's read() and consumed by
_handle_track (mqtt_client.py:133-140): fix flag, coordinates, optional
altitude in metres (gps_data.get("alt", 0.0)). -/
structure GpsReading where
  fix : Bool
  lat : ℚ
  lon : ℚ
  alt : Option ℚ := none
deriving DecidableEq, Repr

/-- The track-command payload as read by _handle_track (mqtt_client.py:127-128):
payload.get("omm") and payload.get("set_time", ""). A missing or falsy omm is
`none`. -/
structure TrackPayload where
  omm : Option OMM := none
  set_time : String := ""
deriving DecidableEq, Repr

/-- Fields of TrackingLoop (tracking.py:140-148) that the track handler sets. -/
structure Tracker where
  active : Bool := false
  norad_id : Option ℤ := none
  sat_name : String := ""
deriving DecidableEq, Repr

/-- TrackingLoop.start (tracking.py:156-166): record target identity and mark
the loop active. -/
def tracker_start (_tr : Tracker) (omm : OMM) : Tracker :=
  { active := true,
    norad_id := some omm.NORAD_CAT_ID,
    sat_name := omm.OBJECT_NAME.getD "" }

/-- What _handle_track did with the command. -/
inductive TrackOutcome where
  | rejected_malformed
  | rejected_no_fix
  | started (obs_lat obs_lon obs_alt_km : ℚ)
deriving DecidableEq, Repr

/-- ClientMQTTClient._handle_track (mqtt_client.py:126-145): reject commands
missing omm/set_time, reject with an explicit no-fix error when there is no GPS
reading or the reading has no fix, otherwise transition to TRACKING and start
the tracking loop with the fix coordinates. -/
def handle_track (payload : TrackPayload) (gps : Option GpsReading)
    (m : StateManager) (tr : Tracker) (now : ℚ) :
    StateManager × Tracker × TrackOutcome :=
  match payload.omm with
  | none => (m, tr, TrackOutcome.rejected_malformed)
  | some omm =>
    if payload.set_time = "" then
      (m, tr, TrackOutcome.rejected_malformed)
    else
      match gps with
      | none => (m, tr, TrackOutcome.rejected_no_fix)
      | some g =>
        if !g.fix then
          (m, tr, TrackOutcome.rejected_no_fix)
        else
          ((transition m State.tracking "" now).1,
           tracker_start tr omm,
           TrackOutcome.started g.lat g.lon (g.alt.getD 0 / 1000))

end Mqtt

namespace Server

/-- GPSData (models.py:7-12). -/
structure GPSData where
  lat : ℚ
  lon : ℚ
  alt_m : ℚ := 0
  satellites : ℤ := 0
  hdop : ℚ := 0
deriving DecidableEq, Repr

/-- TrackingInfo (models.py:15-18). -/
structure TrackingInfo where
  active : Bool := false
  norad_id : Option ℤ := none
  name : Option String := none
deriving DecidableEq, Repr

/-- ClientStateInfo (models.py:21-24). -/
structure ClientStateInfo where
  state : String := "unknown"
  state_since : ℚ := 0
  error_detail : String := ""
deriving DecidableEq, Repr

/-- ClientGPSInfo (models.py:27-30). -/
structure ClientGPSInfo where
  fix : Bool := false
  satellites : ℤ := 0
  hdop : Option ℚ := none
deriving DecidableEq, Repr

/-- ClientIMUInfo (models.py:33-36). -/
structure ClientIMUInfo where
  roll : ℚ := 0
  pitch : ℚ := 0
  yaw : ℚ := 0
deriving DecidableEq, Repr

/-- The state-message payload as read by update_state (antenna_manager.py:62-86)
and by the registration path (server mqtt_client.py:74-81).  The tracking field
is `none` both when the key is absent and when its value is falsy. -/
structure StatePayload where
  state : String := ""
  hostname : String := ""
  capabilities : List String := []
  uptime_s : Option ℚ := none
  state_since : ℚ := 0
  error_detail : String := ""
  tracking_norad_id : Option ℤ := none
  tracking_name : Option String := none
  tracking : Bool := false
deriving DecidableEq, Repr

/-- The state sub-dict of a full-status payload (antenna_manager.py:103-106):
ClientStateInfo(**state_info) together with state_info.get("state", c.status). -/
structure StateInfoPayload where
  state : Option String := none
  state_since : ℚ := 0
  error_detail : String := ""
deriving DecidableEq, Repr

/-- The tracking sub-dict of a full-status payload (antenna_manager.py:113-121). -/
structure FullTrackingPayload where
  active : Bool := false
  norad_id : Option ℤ := none
  name : Option String := none
  az : ℚ := 0
  el : ℚ := 0
deriving DecidableEq, Repr

/-- The full-status payload as read by update_full_status
(antenna_manager.py:96-122). -/
structure StatusPayload where
  uptime_s : Option ℚ := none
  state : Option StateInfoPayload := none
  gps : Option ClientGPSInfo := none
  imu : Option ClientIMUInfo := none
  tracking : Option FullTrackingPayload := none
deriving DecidableEq, Repr

/-- ClientState (models.py:39-53), one registry record per station id. -/
structure ClientState where
  client_id : String
  hostname : String
  capabilities : List String := []
  status : String := "initializing"
  gps : Option GPSData := none
  imu_calibrated : Bool := false
  tracking : Option TrackingInfo := none
  uptime_s : ℚ := 0
  client_state_info : Option ClientStateInfo := none
  client_gps_info : Option ClientGPSInfo := none
  client_imu_info : Option ClientIMUInfo := none
  last_full_status : Option StatusPayload := none
  tracking_az : ℚ := 0
  tracking_el : ℚ := 0
deriving DecidableEq, Repr

/-- The AntennaManager._clients dict (antenna_manager.py:26), as a finite map
from station id to record. -/
def Registry : Type := String → Option ClientState

/-- The empty registry (AntennaManager.__init__). -/
def emptyRegistry : Registry := fun _ => none

/-- Mutate the record stored under a key, when present (the
`self._clients.get(client_id)` / `if c:` pattern). -/
def updateAt (reg : Registry) (client_id : String)
    (f : ClientState → ClientState) : Registry :=
  fun k => if k = client_id then (reg k).map f else reg k

/-- AntennaManager.register (antenna_manager.py:36-46): store a fresh record
under the id. -/
def register (reg : Registry) (client_id hostname : String)
    (capabilities : List String) (status : String) : Registry :=
  fun k =>
    if k = client_id then
      some { client_id := client_id, hostname := hostname,
             capabilities := capabilities, status := status }
    else reg k

/-- AntennaManager.update_location (antenna_manager.py:48-53). -/
def update_location (reg : Registry) (client_id : String) (gps : GPSData) :
    Registry :=
  updateAt reg client_id (fun c => { c with gps := some gps })

/-- AntennaManager.update_calibration (antenna_manager.py:55-60). -/
def update_calibration (reg : Registry) (client_id : String)
    (calibrated : Bool) : Registry :=
  updateAt reg client_id (fun c => { c with imu_calibrated := calibrated })

/-- The record mutation performed by update_state (antenna_manager.py:68-85):
a non-empty state string becomes the status; state info is rebuilt from the
payload; tracking is set when the payload carries tracking info and cleared
when it does not, unless the reported state is "tracking". -/
def update_state_fn (p : StatePayload) (c : ClientState) : ClientState :=
  let c1 := if p.state ≠ "" then { c with status := p.state } else c
  let c2 := { c1 with
              uptime_s := p.uptime_s.getD c.uptime_s,
              client_state_info :=
                some { state := p.state, state_since := p.state_since,
                       error_detail := p.error_detail } }
  if p.tracking then
    { c2 with tracking := some { active := true,
                                 norad_id := p.tracking_norad_id,
                                 name := p.tracking_name } }
  else if p.state ≠ "tracking" then
    { c2 with tracking := none }
  else
    c2

/-- AntennaManager.update_state (antenna_manager.py:62-86): mutate the record
when the id is known, ignore the message otherwise. -/
def update_state (reg : Registry) (client_id : String) (p : StatePayload) :
    Registry :=
  updateAt reg client_id (update_state_fn p)

/-- AntennaManager.update_telemetry (antenna_manager.py:88-94). -/
def update_telemetry (reg : Registry) (client_id : String) (az el : ℚ) :
    Registry :=
  updateAt reg client_id (fun c => { c with tracking_az := az, tracking_el := el })

/-- The record mutation performed by update_full_status
(antenna_manager.py:101-121). -/
def update_full_status_fn (p : StatusPayload) (c : ClientState) : ClientState :=
  let c1 := { c with last_full_status := some p,
                     uptime_s := p.uptime_s.getD c.uptime_s }
  let c2 := match p.state with
    | some si =>
        let info : ClientStateInfo :=
          { state := si.state.getD "unknown",
            state_since := si.state_since,
            error_detail := si.error_detail }
        { c1 with client_state_info := some info,
                  status := si.state.getD c1.status }
    | none => c1
  let c3 := match p.gps with
    | some g => { c2 with client_gps_info := some g }
    | none => c2
  let c4 := match p.imu with
    | some i => { c3 with client_imu_info := some i }
    | none => c3
  match p.tracking with
  | some t =>
      let ti : TrackingInfo :=
        { active := t.active, norad_id := t.norad_id, name := t.name }
      { c4 with tracking := some ti,
                tracking_az := t.az, tracking_el := t.el }
  | none => c4

/-- AntennaManager.update_full_status (antenna_manager.py:96-122). -/
def update_full_status (reg : Registry) (client_id : String)
    (p : StatusPayload) : Registry :=
  updateAt reg client_id (update_full_status_fn p)

/-- The record mutation performed by mark_offline (antenna_manager.py:127-130):
flip status to "offline", reset state info, clear tracking; everything else is
untouched. -/
def mark_offline_fn (c : ClientState) : ClientState :=
  { c with status := "offline",
           client_state_info := some { state := "offline" },
           tracking := none }

/-- AntennaManager.mark_offline (antenna_manager.py:124-132): the record is
mutated, never removed. -/
def mark_offline (reg : Registry) (client_id : String) : Registry :=
  updateAt reg client_id mark_offline_fn

/-- The record mutation performed by push_track (antenna_manager.py:169-174):
set the tracking target from the pushed record. -/
def push_track_fn (norad_id : Option ℤ) (name : Option String)
    (c : ClientState) : ClientState :=
  { c with tracking := some { active := true, norad_id := norad_id,
                              name := name } }

/-- Registry effect of AntennaManager.push_track (antenna_manager.py:161-176)
when an MQTT client is configured: unknown ids are refused; otherwise the
record's tracking target is set from the pushed record. -/
def push_track (reg : Registry) (client_id : String) (norad_id : Option ℤ)
    (name : Option String) : Registry :=
  match reg client_id with
  | none => reg
  | some _ => updateAt reg client_id (push_track_fn norad_id name)

/-- ServerMQTTClient._handle_state (server mqtt_client.py:67-82): an "offline"
state marks the station offline; otherwise the station is registered first if
unknown, then updated from the payload. -/
def handle_state (reg : Registry) (client_id : String) (p : StatePayload) :
    Registry :=
  if p.state = "offline" then
    mark_offline reg client_id
  else
    let reg1 :=
      if (reg client_id).isNone then
        register reg client_id p.hostname p.capabilities p.state
      else reg
    update_state reg1 client_id p

/-- One registry operation (the mutating AntennaManager entry points). -/
inductive Op where
  | register (client_id hostname : String) (capabilities : List String)
      (status : String)
  | update_location (client_id : String) (gps : GPSData)
  | update_calibration (client_id : String) (calibrated : Bool)
  | update_state (client_id : String) (p : StatePayload)
  | update_telemetry (client_id : String) (az el : ℚ)
  | update_full_status (client_id : String) (p : StatusPayload)
  | mark_offline (client_id : String)
  | push_track (client_id : String) (norad_id : Option ℤ) (name : Option String)
deriving DecidableEq

/-- Interpret one operation on the registry. -/
def applyOp (op : Op) (reg : Registry) : Registry :=
  match op with
  | Op.register id host caps status => register reg id host caps status
  | Op.update_location id gps => update_location reg id gps
  | Op.update_calibration id cal => update_calibration reg id cal
  | Op.update_state id p => update_state reg id p
  | Op.update_telemetry id az el => update_telemetry reg id az el
  | Op.update_full_status id p => update_full_status reg id p
  | Op.mark_offline id => mark_offline reg id
  | Op.push_track id norad name => push_track reg id norad name

/-- Interpret a sequence of operations, oldest first. -/
def applyOps (ops : List Op) (reg : Registry) : Registry :=
  ops.foldl (fun r op => applyOp op r) reg

/-- The spec's data-model invariant: the tracking target is non-null exactly
when the state equals TRACKING. -/
def trackingInv (c : ClientState) : Prop :=
  c.tracking.isSome ↔ c.status = "tracking"

end Server

namespace PP

/-- MIN_ELEVATION_DEG (pass_prediction.py:18). -/
def MIN_ELEVATION_DEG : ℚ := 5

/-- The elevation evaluation `_elevation_at_cached satrec · obs_cache`
(pass_prediction.py:110-115) for one satellite and one observer, abstracted as
an oracle from an instant (UTC seconds, exact rationals) to the computed
elevation; `none` is a propagation error (sgp4 error, satellite_ecef_at
returning None). -/
def Oracle : Type := ℚ → Option ℚ

/-- _bisect_crossing (pass_prediction.py:144-158): binary search for the upward
threshold crossing; an evaluation failure breaks out, returning the current
midpoint. -/
def bisect_crossing (el : Oracle) (thr : ℚ) : ℚ → ℚ → ℕ → ℚ
  | lo, hi, 0 => (lo + hi) / 2
  | lo, hi, n + 1 =>
      match el ((lo + hi) / 2) with
      | none => (lo + hi) / 2
      | some e =>
          if thr ≤ e then bisect_crossing el thr lo ((lo + hi) / 2) n
          else bisect_crossing el thr ((lo + hi) / 2) hi n

/-- _bisect_crossing_set (pass_prediction.py:161-175): binary search for the
downward crossing. -/
def bisect_crossing_set (el : Oracle) (thr : ℚ) : ℚ → ℚ → ℕ → ℚ
  | lo, hi, 0 => (lo + hi) / 2
  | lo, hi, n + 1 =>
      match el ((lo + hi) / 2) with
      | none => (lo + hi) / 2
      | some e =>
          if thr ≤ e then bisect_crossing_set el thr ((lo + hi) / 2) hi n
          else bisect_crossing_set el thr lo ((lo + hi) / 2) n

/-- Number of iterations of a `t = t0; while t <= t1: ...; t += step` loop
(step > 0). -/
def scan_count (t0 t1 step : ℚ) : ℕ :=
  if t0 ≤ t1 then (⌊(t1 - t0) / step⌋).toNat + 1 else 0

/-- The instants visited by such a loop. -/
def scan_times (t0 t1 step : ℚ) : List ℚ :=
  (List.range (scan_count t0 t1 step)).map (fun k : ℕ => t0 + step * (k : ℚ))

/-- Maximum-tracking fold body: Python's `if el is not None and el > max_el`. -/
def max_fold (el : Oracle) (m : ℚ) (t : ℚ) : ℚ :=
  match el t with
  | some e => if e > m then e else m
  | none => m

/-- _find_max_elevation (pass_prediction.py:255-291): fine 5 s scan for short
passes, otherwise coarse 30 s scan for an approximate peak refined by a 5 s
scan on a ±60 s bracket.  The running maximum starts at 0.0 as in the source. -/
def find_max_elevation (el : Oracle) (t_start t_end : ℚ) : ℚ :=
  let duration := t_end - t_start
  if duration < 120 then
    (scan_times t_start t_end 5).foldl (max_fold el) 0
  else
    let mp := (scan_times t_start t_end 30).foldl
      (fun (mp : ℚ × ℚ) t =>
        match el t with
        | some e => if e > mp.1 then (e, t) else mp
        | none => mp)
      (0, t_start)
    let refine_start := max t_start (mp.2 - 60)
    let refine_end := min t_end (mp.2 + 60)
    (scan_times refine_start refine_end 5).foldl (max_fold el) mp.1

/-- One emitted pass (the dicts built at pass_prediction.py:228-233, 245-250). -/
structure PassRec where
  rise : ℚ
  set : ℚ
  max_el : ℚ
  duration_s : ℚ
deriving DecidableEq, Repr

/-- Loop state of the find_passes scan (pass_prediction.py:199-202).  The
source keeps in_pass and pass_start in lockstep; they are fused into one
Option. -/
structure ScanState where
  pass_start : Option ℚ
  prev_el : Option ℚ
  passes : List PassRec
deriving DecidableEq, Repr

/-- One iteration of the find_passes coarse scan (pass_prediction.py:204-238). -/
def scan_step (el : Oracle) (st : ScanState) (t : ℚ) : ScanState :=
  match el t with
  | none => { st with prev_el := none }
  | some e =>
    match st.pass_start with
    | none =>
        if MIN_ELEVATION_DEG ≤ e then
          let rise :=
            match st.prev_el with
            | some pe =>
                if pe < MIN_ELEVATION_DEG then
                  bisect_crossing el MIN_ELEVATION_DEG (t - 60) t 20
                else t
            | none => t
          { pass_start := some rise, prev_el := some e, passes := st.passes }
        else
          { st with prev_el := some e }
    | some ps =>
        if e < MIN_ELEVATION_DEG then
          let set_time := bisect_crossing_set el MIN_ELEVATION_DEG (t - 60) t 20
          let mel := find_max_elevation el ps set_time
          let dur := set_time - ps
          { pass_start := none, prev_el := some e,
            passes := st.passes ++ (if 0 < dur then [⟨ps, set_time, mel, dur⟩] else []) }
        else
          { st with prev_el := some e }

/-- The body of find_passes after a successful get_satrec
(pass_prediction.py:193-252): 60 s coarse scan over the window, then the
trailing close of a pass still open at the window end. -/
def find_passes_el (el : Oracle) (start : ℚ) (hours : ℕ) : List PassRec :=
  let end_dt := start + 3600 * (hours : ℚ)
  let times := (List.range (60 * hours + 1)).map (fun k : ℕ => start + 60 * (k : ℚ))
  let fin := times.foldl (scan_step el) ⟨none, none, []⟩
  match fin.pass_start with
  | some ps =>
      let mel := find_max_elevation el ps end_dt
      let dur := end_dt - ps
      fin.passes ++ (if 0 < dur then [⟨ps, end_dt, mel, dur⟩] else [])
  | none => fin.passes

/-- find_passes (pass_prediction.py:178-252).  `sat = none` is the case where
get_satrec raises (invalid element set): the except branch returns []. -/
def find_passes (sat : Option Oracle) (start : ℚ) (hours : ℕ) : List PassRec :=
  match sat with
  | none => []
  | some el => find_passes_el el start hours

/-- Loop of _scan_forward_set (pass_prediction.py:294-306): 30 s steps, bounded
by the fuel that encodes `while t <= start + 6h`. -/
def scan_forward_go (el : Oracle) (thr end_t : ℚ) : ℚ → ℚ → ℕ → ℚ
  | _prev, _t, 0 => end_t
  | prev, t, n + 1 =>
      match el t with
      | none => bisect_crossing_set el thr prev t 20
      | some e =>
          if e < thr then bisect_crossing_set el thr prev t 20
          else scan_forward_go el thr end_t t (t + 30) n

/-- _scan_forward_set (pass_prediction.py:294-306) with the default 6 h
lookahead: 720 iterations of the 30 s loop. -/
def scan_forward_set (el : Oracle) (start thr : ℚ) : ℚ :=
  scan_forward_go el thr (start + 21600) start (start + 30) 720

/-- Loop of _scan_backward_rise (pass_prediction.py:309-321). -/
def scan_backward_go (el : Oracle) (thr begin_t : ℚ) : ℚ → ℚ → ℕ → ℚ
  | _prev, _t, 0 => begin_t
  | prev, t, n + 1 =>
      match el t with
      | none => bisect_crossing el thr t prev 20
      | some e =>
          if e < thr then bisect_crossing el thr t prev 20
          else scan_backward_go el thr begin_t t (t - 30) n

/-- _scan_backward_rise (pass_prediction.py:309-321) with the default 2 h
lookback: 240 iterations of the 30 s loop. -/
def scan_backward_rise (el : Oracle) (start thr : ℚ) : ℚ :=
  scan_backward_go el thr (start - 7200) start (start - 30) 240

/-- One candidate object handed to find_visible_now: its identity plus either
its elevation oracle or `none` when get_satrec raises on its record. -/
structure VisObj where
  norad_id : Option ℤ := none
  name : Option String := none
  sat : Option Oracle := none

/-- One entry of the find_visible_now result (pass_prediction.py:357-367). -/
structure VisEntry where
  name : String
  norad_id : Option ℤ
  el : ℚ
  rise : ℚ
  set : ℚ
  max_el : ℚ
  duration_s : ℚ
  is_favorite : Bool
deriving DecidableEq, Repr

/-- find_visible_now (pass_prediction.py:324-371): skip objects whose record is
rejected by get_satrec or that fail to propagate at the query instant; keep
those at or above the threshold, attaching a forward-scanned set instant, a
backward-scanned rise instant and a peak elevation; favorites first, each group
sorted by descending current elevation (Python's stable sort on key -el). -/
def find_visible_now (objs : List VisObj) (favIds : List ℤ) (now : ℚ) :
    List VisEntry :=
  let visible := objs.filterMap (fun o =>
    match o.sat with
    | none => none
    | some f =>
      match f now with
      | none => none
      | some e =>
        if e < MIN_ELEVATION_DEG then none
        else
          let set_time := scan_forward_set f now MIN_ELEVATION_DEG
          let rise_time := scan_backward_rise f now MIN_ELEVATION_DEG
          let mel := max e (find_max_elevation f now set_time)
          some { name := o.name.getD
                   (match o.norad_id with
                    | some n => "NORAD " ++ toString n
                    | none => "NORAD None"),
                 norad_id := o.norad_id,
                 el := e, rise := rise_time, set := set_time, max_el := mel,
                 duration_s := set_time - rise_time,
                 is_favorite := match o.norad_id with
                   | some n => favIds.contains n
                   | none => false })
  let le := fun (a b : VisEntry) => decide (b.el ≤ a.el)
  let favs := (visible.filter (fun v => v.is_favorite)).mergeSort le
  let others := (visible.filter (fun v => !v.is_favorite)).mergeSort le
  favs ++ others

end PP

namespace AzEl

open Real

/-- WGS84 equatorial radius in km (pass_prediction.py:13). -/
noncomputable def WGS84_A : ℝ := 6378.137

/-- WGS84 flattening (pass_prediction.py:14). -/
noncomputable def WGS84_F : ℝ := 1 / 298.257223563

/-- WGS84 polar radius (pass_prediction.py:15). -/
noncomputable def WGS84_B : ℝ := WGS84_A * (1 - WGS84_F)

/-- WGS84 eccentricity squared (pass_prediction.py:16). -/
noncomputable def WGS84_E2 : ℝ := 1 - (WGS84_B / WGS84_A) ^ 2

/-- np.radians. -/
noncomputable def radians (deg : ℝ) : ℝ := deg * (π / 180)

/-- np.degrees. -/
noncomputable def degrees (rad : ℝ) : ℝ := rad * (180 / π)

/-- np.arctan2 (IEEE atan2): the angle of the point (x, y) in (-pi, pi]. -/
noncomputable def atan2 (y x : ℝ) : ℝ :=
  if 0 < x then arctan (y / x)
  else if x < 0 then
    if 0 ≤ y then arctan (y / x) + π else arctan (y / x) - π
  else
    if 0 < y then π / 2 else if y < 0 then -(π / 2) else 0

/-- Python's float `x % 360.0`: the representative of x modulo 360 in
[0, 360). -/
noncomputable def mod360 (x : ℝ) : ℝ := x - 360 * ⌊x / 360⌋

/-- observer_ecef (pass_prediction.py:21-31). -/
noncomputable def observer_ecef (lat_deg lon_deg alt_km : ℝ) : ℝ × ℝ × ℝ :=
  let lat := radians lat_deg
  let lon := radians lon_deg
  let sin_lat := sin lat
  let cos_lat := cos lat
  let N := WGS84_A / Real.sqrt (1 - WGS84_E2 * sin_lat ^ 2)
  ((N + alt_km) * cos_lat * cos lon,
   (N + alt_km) * cos_lat * sin lon,
   (N * (1 - WGS84_E2) + alt_km) * sin_lat)

/-- The South-East-Zenith components of the observer-to-satellite range vector
(pass_prediction.py:120-133). -/
noncomputable def sez (obs_lat_deg obs_lon_deg obs_alt_km : ℝ)
    (sat : ℝ × ℝ × ℝ) : ℝ × ℝ × ℝ :=
  let obs := observer_ecef obs_lat_deg obs_lon_deg obs_alt_km
  let r0 := sat.1 - obs.1
  let r1 := sat.2.1 - obs.2.1
  let r2 := sat.2.2 - obs.2.2
  let lat := radians obs_lat_deg
  let lon := radians obs_lon_deg
  let sin_lat := sin lat
  let cos_lat := cos lat
  let sin_lon := sin lon
  let cos_lon := cos lon
  (sin_lat * cos_lon * r0 + sin_lat * sin_lon * r1 - cos_lat * r2,
   -sin_lon * r0 + cos_lon * r1,
   cos_lat * cos_lon * r0 + cos_lat * sin_lon * r1 + sin_lat * r2)

/-- The range magnitude sqrt(s² + e² + z²) (pass_prediction.py:135). -/
noncomputable def rng_mag (q : ℝ × ℝ × ℝ) : ℝ :=
  Real.sqrt (q.1 * q.1 + q.2.1 * q.2.1 + q.2.2 * q.2.2)

/-- compute_az_el (pass_prediction.py:118-141). -/
noncomputable def compute_az_el (obs_lat_deg obs_lon_deg obs_alt_km : ℝ)
    (sat : ℝ × ℝ × ℝ) : ℝ × ℝ :=
  let q := sez obs_lat_deg obs_lon_deg obs_alt_km sat
  let mag := rng_mag q
  if mag < 1e-6 then (0, 90)
  else
    (mod360 (degrees (atan2 q.2.1 (-q.1))),
     degrees (arcsin (q.2.2 / mag)))

end AzEl

namespace TrackingClient

open Real

/-- compute_az_el as duplicated on the device (tracking.py:108-131); the body
is the same SEZ computation as the hub-side copy. -/
noncomputable def compute_az_el (obs_lat_deg obs_lon_deg obs_alt_km : ℝ)
    (sat : ℝ × ℝ × ℝ) : ℝ × ℝ :=
  let q := AzEl.sez obs_lat_deg obs_lon_deg obs_alt_km sat
  let mag := AzEl.rng_mag q
  if mag < 1e-6 then (0, 90)
  else
    (AzEl.mod360 (AzEl.degrees (AzEl.atan2 q.2.1 (-q.1))),
     AzEl.degrees (arcsin (q.2.2 / mag)))

end TrackingClient

/-- Concrete element set for the cache witness. -/
def c8_omm1 : OMM := { NORAD_CAT_ID := 25544, ECCENTRICITY := 1/1000 }

/-- Replacement element set for the cache witness: same catalog id, different
eccentricity. -/
def c8_omm2 : OMM := { NORAD_CAT_ID := 25544, ECCENTRICITY := 2/1000 }

/-- Cache state after the first element set was built. -/
def c8_cache1 : Propagator.Cache :=
  (Propagator.get_satrec (fun _ => none) c8_omm1).2

/-- Well-formedness of a registry operation for the amended tracking
invariant: registration with a non-tracking status, state updates whose
payload is internally consistent (non-empty state, tracking info present
exactly when the state is "tracking"), and offline marking. -/
def Server.wfOp : Server.Op → Prop
  | Server.Op.register _ _ _ status => status ≠ "tracking"
  | Server.Op.update_state _ p =>
      p.state ≠ "" ∧ (p.tracking = true ↔ p.state = "tracking")
  | Server.Op.mark_offline _ => True
  | _ => False

/-- Operation sequence of the C3 counterexample: a station registers as READY,
then the hub pushes a track command to it. -/
def c3_ops : List Server.Op :=
  [Server.Op.register "gs-1" "host-1" [] "ready",
   Server.Op.push_track "gs-1" (some 25544) (some "ISS (ZARYA)")]

/-- Registry after the C3 counterexample sequence. -/
def c3_reg : Server.Registry := Server.applyOps c3_ops Server.emptyRegistry

/-- The record the C3 counterexample sequence produces: a non-null tracking
target while the status is still "ready". -/
def c3_bad : Server.ClientState :=
  { client_id := "gs-1", hostname := "host-1", capabilities := [],
    status := "ready",
    tracking := some { active := true, norad_id := some 25544,
                       name := some "ISS (ZARYA)" } }

/-- Operation sequence for the amended-C3 witness: register, a consistent
tracking state update, then offline marking. -/
def c3w_ops : List Server.Op :=
  [Server.Op.register "gs-1" "host-1" [] "ready",
   Server.Op.update_state "gs-1"
     { state := "tracking", tracking := true, tracking_norad_id := some 25544 },
   Server.Op.mark_offline "gs-1"]

/-- The record produced by the amended-C3 witness sequence. -/
def c3w_c : Server.ClientState :=
  { client_id := "gs-1", hostname := "host-1", capabilities := [],
    status := "offline",
    client_state_info := some { state := "offline" },
    tracking := none }

/-- Elevation oracle of the C4 counterexample: the object propagates (well
above the threshold) at the window start and at no later evaluated instant —
e.g. an orbit that decays right after the scan begins. -/
def c4_el : PP.Oracle := fun t => if t = 0 then some 10 else none

/-- The single pass the C4 oracle produces over a one-hour window (closed
form: the trailing close emits [0, 3600] although propagation failed from
instant 60 onward). -/
def c4_pass : PP.PassRec :=
  { rise := 0, set := 3600,
    max_el := PP.find_max_elevation c4_el 0 3600,
    duration_s := 3600 }

/-- Elevation oracle for the C5 witness: constantly 10 degrees. -/
def c5_oracle : PP.Oracle := fun _ => some 10

/-- Candidate object for the C5 witness. -/
def c5_obj : PP.VisObj :=
  { norad_id := some 25544, name := some "ISS", sat := some c5_oracle }

/-- The entry find_visible_now returns for the C5 witness object at instant 0
(the rise/set fields are the backward/forward scan results; for the constant
oracle they equal the 2 h lookback and 6 h lookahead bounds). -/
def c5_entry : PP.VisEntry :=
  { name := "ISS", norad_id := some 25544, el := 10,
    rise := PP.scan_backward_rise c5_oracle 0 PP.MIN_ELEVATION_DEG,
    set := PP.scan_forward_set c5_oracle 0 PP.MIN_ELEVATION_DEG,
    max_el := max 10 (PP.find_max_elevation c5_oracle 0
      (PP.scan_forward_set c5_oracle 0 PP.MIN_ELEVATION_DEG)),
    duration_s := PP.scan_forward_set c5_oracle 0 PP.MIN_ELEVATION_DEG -
      PP.scan_backward_rise c5_oracle 0 PP.MIN_ELEVATION_DEG,
    is_favorite := false }

/-
Theorems.
-/

/-- C1: for every current manager state and every requested state outside the
transition table, StateManager.transition returns false and leaves the state,
the error detail and the state-entry instant unchanged; in particular BOOT to
TRACKING is refused and the state remains BOOT (see the witness). -/
theorem C1_invalid_transition_is_noop (m : Client.StateManager)
    (s : Client.State) (d : String) (now : ℚ)
    (h : s ∉ Client.TRANSITIONS m.state) :
    Client.transition m s d now = (m, false) := by
  unfold Client.transition
  simp [h]

/-- C1 witness: a BOOT to TRACKING request is outside the table and is a
refused no-op. -/
theorem C1_invalid_transition_is_noop_witness :
    Client.State.tracking ∉ Client.TRANSITIONS Client.State.boot ∧
    Client.transition ⟨Client.State.boot, "", 0⟩ Client.State.tracking "" 5 =
      (⟨Client.State.boot, "", 0⟩, false) :=
  ⟨by decide, C1_invalid_transition_is_noop _ _ _ _ (by decide)⟩

/-- C2: while the state is TRACKING, the connectivity watchdog of the
maintenance loop requests no transition at all (however long the link has been
down), a DEGRADED request (such as the one from the loop's exception handler)
is rejected without a state change, and any transition request whatsoever
leaves the state in {TRACKING, READY, ERROR, SHUTDOWN} — DEGRADED is never
entered from TRACKING. -/
theorem C2_tracking_never_enters_degraded (m : Client.StateManager)
    (req : Client.State) (d : String) (now : ℚ) (conn : Bool)
    (tm : Maint.Timers) (h : m.state = Client.State.tracking) :
    (Maint.mqtt_watchdog conn m.state now tm).request = none ∧
    Client.transition m Client.State.degraded d now = (m, false) ∧
    (Client.transition m req d now).1.state ≠ Client.State.degraded ∧
    (Client.transition m req d now).1.state ∈
      [Client.State.tracking, Client.State.ready, Client.State.error,
       Client.State.shutdown] := by
  obtain ⟨s, e0, t0⟩ := m
  simp only [Client.StateManager.state] at h
  subst h
  refine ⟨?_, ?_, ?_, ?_⟩
  · unfold Maint.mqtt_watchdog
    split_ifs <;> simp_all
  · simp [Client.transition, Client.TRANSITIONS]
  · cases req <;> simp [Client.transition, Client.TRANSITIONS]
  · cases req <;> simp [Client.transition, Client.TRANSITIONS]

/-- C2 witness: a concrete TRACKING manager with a disconnected link; the
watchdog stays quiet and a DEGRADED request bounces. -/
theorem C2_tracking_never_enters_degraded_witness :
    (Maint.mqtt_watchdog false Client.State.tracking 600 ⟨0, 0⟩).request = none ∧
    Client.transition ⟨Client.State.tracking, "", 0⟩ Client.State.degraded "" 600 =
      (⟨Client.State.tracking, "", 0⟩, false) ∧
    (Client.transition ⟨Client.State.tracking, "", 0⟩ Client.State.degraded "" 600).1.state ≠
      Client.State.degraded ∧
    (Client.transition ⟨Client.State.tracking, "", 0⟩ Client.State.degraded "" 600).1.state ∈
      [Client.State.tracking, Client.State.ready, Client.State.error,
       Client.State.shutdown] :=
  C2_tracking_never_enters_degraded ⟨Client.State.tracking, "", 0⟩
    Client.State.degraded "" 600 false ⟨0, 0⟩ rfl

/-- C7: a track command arriving while the device has no GPS fix (no reading,
or a reading without fix) is rejected: the state manager and the tracking loop
are untouched, the loop is not started, and a well-formed command is rejected
with the explicit no-fix outcome. -/
theorem C7_track_without_fix_rejected (payload : Mqtt.TrackPayload)
    (gps : Option Mqtt.GpsReading) (m : Client.StateManager)
    (tr : Mqtt.Tracker) (now : ℚ)
    (h : gps = none ∨ ∃ g, gps = some g ∧ g.fix = false) :
    (Mqtt.handle_track payload gps m tr now).1 = m ∧
    (Mqtt.handle_track payload gps m tr now).2.1 = tr ∧
    (∀ la lo al, (Mqtt.handle_track payload gps m tr now).2.2 ≠
        Mqtt.TrackOutcome.started la lo al) ∧
    (payload.omm.isSome → payload.set_time ≠ "" →
        (Mqtt.handle_track payload gps m tr now).2.2 =
          Mqtt.TrackOutcome.rejected_no_fix) := by
  rcases payload with ⟨po, ps⟩
  rcases h with rfl | ⟨g, rfl, hg⟩
  · cases po with
    | none => simp [Mqtt.handle_track]
    | some o => by_cases hps : ps = "" <;> simp [Mqtt.handle_track, hps]
  · cases po with
    | none => simp [Mqtt.handle_track]
    | some o => by_cases hps : ps = "" <;> simp [Mqtt.handle_track, hps, hg]

/-- C7 witness: a well-formed track command with a fix-less GPS reading; the
handler leaves everything unchanged and reports the no-fix rejection. -/
theorem C7_track_without_fix_rejected_witness :
    (Mqtt.handle_track ⟨some { NORAD_CAT_ID := 25544 }, "2025-06-01T00:10:00Z"⟩
        (some ⟨false, 1, 2, none⟩) ⟨Client.State.ready, "", 0⟩ {} 100).1 =
      ⟨Client.State.ready, "", 0⟩ ∧
    (Mqtt.handle_track ⟨some { NORAD_CAT_ID := 25544 }, "2025-06-01T00:10:00Z"⟩
        (some ⟨false, 1, 2, none⟩) ⟨Client.State.ready, "", 0⟩ {} 100).2.1 = {} ∧
    (∀ la lo al,
      (Mqtt.handle_track ⟨some { NORAD_CAT_ID := 25544 }, "2025-06-01T00:10:00Z"⟩
          (some ⟨false, 1, 2, none⟩) ⟨Client.State.ready, "", 0⟩ {} 100).2.2 ≠
        Mqtt.TrackOutcome.started la lo al) ∧
    (Mqtt.handle_track ⟨some { NORAD_CAT_ID := 25544 }, "2025-06-01T00:10:00Z"⟩
        (some ⟨false, 1, 2, none⟩) ⟨Client.State.ready, "", 0⟩ {} 100).2.2 =
      Mqtt.TrackOutcome.rejected_no_fix := by
  have h := C7_track_without_fix_rejected
    ⟨some { NORAD_CAT_ID := 25544 }, "2025-06-01T00:10:00Z"⟩
    (some ⟨false, 1, 2, none⟩) ⟨Client.State.ready, "", 0⟩ {} 100
    (Or.inr ⟨⟨false, 1, 2, none⟩, rfl, rfl⟩)
  exact ⟨h.1, h.2.1, h.2.2.1, h.2.2.2 (by decide) (by decide)⟩

/-- C8: the propagator cache is lazy and reused — a hit returns the cached
propagator with no rebuild and no cache change; a miss builds the propagator
from the record once and stores it under its catalog id; any later call for the
same catalog id returns that same propagator unchanged; other ids are never
touched; and after the cache clear performed when the loaded element sets are
replaced, get_satrec with the new record builds from the new elements rather
than any stale cached state. -/
theorem C8_satrec_cache_lazy_and_invalidated (cache : Propagator.Cache)
    (omm : OMM) :
    (∀ s, cache omm.NORAD_CAT_ID = some s →
        Propagator.get_satrec cache omm = (s, cache)) ∧
    (cache omm.NORAD_CAT_ID = none →
        Propagator.get_satrec cache omm =
          (Propagator.omm_to_satrec omm,
           fun k => if k = omm.NORAD_CAT_ID then
               some (Propagator.omm_to_satrec omm)
             else cache k)) ∧
    (∀ omm2, omm2.NORAD_CAT_ID = omm.NORAD_CAT_ID →
        Propagator.get_satrec (Propagator.get_satrec cache omm).2 omm2 =
          ((Propagator.get_satrec cache omm).1,
           (Propagator.get_satrec cache omm).2)) ∧
    (∀ k, k ≠ omm.NORAD_CAT_ID →
        (Propagator.get_satrec cache omm).2 k = cache k) ∧
    (∀ newOmm,
        (Propagator.get_satrec (Propagator.clear_satrec_cache cache) newOmm).1 =
          Propagator.omm_to_satrec newOmm) := by
  refine ⟨?_, ?_, ?_, ?_, ?_⟩
  · intro s hs
    unfold Propagator.get_satrec
    rw [hs]
  · intro hn
    unfold Propagator.get_satrec
    rw [hn]
  · intro omm2 h2
    unfold Propagator.get_satrec
    cases hc : cache omm.NORAD_CAT_ID with
    | some s => simp [hc, h2]
    | none => simp [hc, h2]
  · intro k hk
    unfold Propagator.get_satrec
    cases hc : cache omm.NORAD_CAT_ID <;> simp [hk]
  · intro newOmm
    unfold Propagator.get_satrec Propagator.clear_satrec_cache
    simp

/-- C8 witness: with the first record cached, a same-id call reuses the cached
propagator without rebuilding, and after the reload-path cache clear the new
record's propagator is built from the new elements. -/
theorem C8_satrec_cache_lazy_and_invalidated_witness :
    Propagator.get_satrec c8_cache1 c8_omm2 =
      ((Propagator.get_satrec (fun _ => none) c8_omm1).1, c8_cache1) ∧
    (Propagator.get_satrec (Propagator.clear_satrec_cache c8_cache1) c8_omm2).1 =
      Propagator.omm_to_satrec c8_omm2 :=
  ⟨(C8_satrec_cache_lazy_and_invalidated (fun _ => none) c8_omm1).2.2.1
      c8_omm2 rfl,
   (C8_satrec_cache_lazy_and_invalidated c8_cache1 c8_omm1).2.2.2.2 c8_omm2⟩

/-- A record mutation under an id absent from the registry is a no-op. -/
theorem Server.updateAt_of_none {reg : Server.Registry} {id : String}
    (h : reg id = none) (f : Server.ClientState → Server.ClientState) :
    Server.updateAt reg id f = reg := by
  funext k
  unfold Server.updateAt
  by_cases hk : k = id
  · subst hk; simp [h]
  · simp [hk]

/-- updateAt preserves which ids are present. -/
theorem Server.updateAt_isSome (reg : Server.Registry) (id k : String)
    (f : Server.ClientState → Server.ClientState) :
    ((Server.updateAt reg id f) k).isSome = (reg k).isSome := by
  unfold Server.updateAt
  by_cases hk : k = id <;> simp [hk]

/-- A record read back after updateAt is either the mutation of the record
that was there, or the untouched record under a different id. -/
theorem Server.updateAt_eq_some {reg : Server.Registry} {id id2 : String}
    {f : Server.ClientState → Server.ClientState} {c2 : Server.ClientState}
    (h : Server.updateAt reg id f id2 = some c2) :
    (∃ c0, reg id2 = some c0 ∧ c2 = f c0) ∨ reg id2 = some c2 := by
  unfold Server.updateAt at h
  by_cases hk : id2 = id
  · rw [if_pos hk] at h
    cases hc0 : reg id2 with
    | none => rw [hc0] at h; cases h
    | some c0 =>
        rw [hc0] at h
        left
        refine ⟨c0, rfl, ?_⟩
        injection h with h
        exact h.symm
  · rw [if_neg hk] at h
    right
    exact h

/-- C10: a station id that was never registered is invisible to every
non-registering update — state, location, telemetry, full-status (and
calibration and push_track) messages for an unknown id leave the registry
map exactly unchanged — and presence of an id after any operation implies it
was already present unless that operation was a register for that very id. -/
theorem C10_only_register_adds_ids (reg : Server.Registry) (id : String)
    (h : reg id = none) :
    (∀ p, Server.update_state reg id p = reg) ∧
    (∀ g, Server.update_location reg id g = reg) ∧
    (∀ az el, Server.update_telemetry reg id az el = reg) ∧
    (∀ p, Server.update_full_status reg id p = reg) ∧
    (∀ cal, Server.update_calibration reg id cal = reg) ∧
    Server.mark_offline reg id = reg ∧
    (∀ n nm, Server.push_track reg id n nm = reg) ∧
    (∀ op reg2 k, ((Server.applyOp op reg2) k).isSome →
        (reg2 k).isSome ∨
        ∃ host caps st, op = Server.Op.register k host caps st) := by
  refine ⟨fun p => Server.updateAt_of_none h _,
          fun g => Server.updateAt_of_none h _,
          fun az el => Server.updateAt_of_none h _,
          fun p => Server.updateAt_of_none h _,
          fun cal => Server.updateAt_of_none h _,
          Server.updateAt_of_none h _,
          fun n nm => ?_, fun op reg2 k hk => ?_⟩
  · unfold Server.push_track
    rw [h]
  · cases op with
    | register id2 host caps st =>
        by_cases hki : k = id2
        · subst hki; exact Or.inr ⟨host, caps, st, rfl⟩
        · left
          simp only [Server.applyOp, Server.register] at hk
          simpa [hki] using hk
    | update_location id2 g =>
        left
        simp only [Server.applyOp, Server.update_location] at hk
        rwa [Server.updateAt_isSome] at hk
    | update_calibration id2 cal =>
        left
        simp only [Server.applyOp, Server.update_calibration] at hk
        rwa [Server.updateAt_isSome] at hk
    | update_state id2 p =>
        left
        simp only [Server.applyOp, Server.update_state] at hk
        rwa [Server.updateAt_isSome] at hk
    | update_telemetry id2 az el =>
        left
        simp only [Server.applyOp, Server.update_telemetry] at hk
        rwa [Server.updateAt_isSome] at hk
    | update_full_status id2 p =>
        left
        simp only [Server.applyOp, Server.update_full_status] at hk
        rwa [Server.updateAt_isSome] at hk
    | mark_offline id2 =>
        left
        simp only [Server.applyOp, Server.mark_offline] at hk
        rwa [Server.updateAt_isSome] at hk
    | push_track id2 n nm =>
        left
        simp only [Server.applyOp, Server.push_track] at hk
        cases hr : reg2 id2 with
        | none => rw [hr] at hk; exact hk
        | some c =>
            rw [hr] at hk
            rwa [Server.updateAt_isSome] at hk

/-- C10 witness: with an empty registry, a state update for an unknown id is
the identity and a telemetry-created id would have had to exist before. -/
theorem C10_only_register_adds_ids_witness :
    (∀ p, Server.update_state Server.emptyRegistry "gs-9" p =
        Server.emptyRegistry) ∧
    (∀ g, Server.update_location Server.emptyRegistry "gs-9" g =
        Server.emptyRegistry) ∧
    (∀ az el, Server.update_telemetry Server.emptyRegistry "gs-9" az el =
        Server.emptyRegistry) ∧
    (∀ p, Server.update_full_status Server.emptyRegistry "gs-9" p =
        Server.emptyRegistry) ∧
    (∀ cal, Server.update_calibration Server.emptyRegistry "gs-9" cal =
        Server.emptyRegistry) ∧
    Server.mark_offline Server.emptyRegistry "gs-9" = Server.emptyRegistry ∧
    (∀ n nm, Server.push_track Server.emptyRegistry "gs-9" n nm =
        Server.emptyRegistry) ∧
    (∀ op reg2 k, ((Server.applyOp op reg2) k).isSome →
        (reg2 k).isSome ∨
        ∃ host caps st, op = Server.Op.register k host caps st) :=
  C10_only_register_adds_ids Server.emptyRegistry "gs-9" rfl

/-- C9: a registered station's record is never removed by any registry
operation; marking it offline only rewrites status, state info and tracking
(the rest of the record, in particular the last GPS fix, survives) and touches
no other id; and a later presence message for the station (handle_state, the
reconnect path) always preserves its recorded GPS fix. -/
theorem C9_offline_keeps_record (reg : Server.Registry) (id : String)
    (c : Server.ClientState) (h : reg id = some c) :
    (∀ op k, (reg k).isSome → ((Server.applyOp op reg) k).isSome) ∧
    (Server.mark_offline reg id) id =
      some { c with status := "offline",
                    client_state_info :=
                      some { state := "offline", state_since := 0,
                             error_detail := "" },
                    tracking := none } ∧
    (∀ k, k ≠ id → (Server.mark_offline reg id) k = reg k) ∧
    (∀ p, ((Server.handle_state reg id p) id).map Server.ClientState.gps =
        some c.gps) := by
  refine ⟨fun op k hk => ?_, ?_, fun k hk => ?_, fun p => ?_⟩
  · cases op with
    | register id2 host caps st =>
        simp only [Server.applyOp, Server.register]
        by_cases hki : k = id2 <;> simp [hki, hk]
    | update_location id2 g =>
        simp only [Server.applyOp, Server.update_location]
        rwa [Server.updateAt_isSome]
    | update_calibration id2 cal =>
        simp only [Server.applyOp, Server.update_calibration]
        rwa [Server.updateAt_isSome]
    | update_state id2 p =>
        simp only [Server.applyOp, Server.update_state]
        rwa [Server.updateAt_isSome]
    | update_telemetry id2 az el =>
        simp only [Server.applyOp, Server.update_telemetry]
        rwa [Server.updateAt_isSome]
    | update_full_status id2 p =>
        simp only [Server.applyOp, Server.update_full_status]
        rwa [Server.updateAt_isSome]
    | mark_offline id2 =>
        simp only [Server.applyOp, Server.mark_offline]
        rwa [Server.updateAt_isSome]
    | push_track id2 n nm =>
        simp only [Server.applyOp, Server.push_track]
        cases hr : reg id2 with
        | none => exact hk
        | some c2 => rwa [Server.updateAt_isSome]
  · unfold Server.mark_offline Server.updateAt Server.mark_offline_fn
    simp [h]
  · unfold Server.mark_offline Server.updateAt
    simp [hk]
  · unfold Server.handle_state
    by_cases hoff : p.state = "offline"
    · simp only [hoff, if_pos]
      unfold Server.mark_offline Server.updateAt Server.mark_offline_fn
      simp [h]
    · simp only [hoff, if_neg, not_false_iff]
      have hnn : (reg id).isNone = false := by rw [h]; rfl
      rw [hnn]
      simp only [Bool.false_eq_true, if_false]
      unfold Server.update_state Server.updateAt Server.update_state_fn
      simp [h]
      split_ifs <;> rfl

/-- C9 witness: a concrete registry with one station holding a GPS fix; its
record survives offline marking with the fix intact, and a presence update
keeps the fix. -/
theorem C9_offline_keeps_record_witness :
    (∀ op k,
      ((Server.register Server.emptyRegistry "gs-1" "host-1" [] "ready") k).isSome →
      ((Server.applyOp op (Server.register Server.emptyRegistry "gs-1" "host-1" [] "ready")) k).isSome) ∧
    (Server.mark_offline (Server.register Server.emptyRegistry "gs-1" "host-1" [] "ready") "gs-1") "gs-1" =
      some { client_id := "gs-1", hostname := "host-1", capabilities := [],
             status := "offline",
             client_state_info :=
               some { state := "offline", state_since := 0, error_detail := "" },
             tracking := none } ∧
    (∀ k, k ≠ "gs-1" →
      (Server.mark_offline (Server.register Server.emptyRegistry "gs-1" "host-1" [] "ready") "gs-1") k =
        (Server.register Server.emptyRegistry "gs-1" "host-1" [] "ready") k) ∧
    (∀ p,
      ((Server.handle_state (Server.register Server.emptyRegistry "gs-1" "host-1" [] "ready") "gs-1" p) "gs-1").map
          Server.ClientState.gps =
        some ({ client_id := "gs-1", hostname := "host-1", capabilities := [],
                status := "ready" } : Server.ClientState).gps) :=
  C9_offline_keeps_record
    (Server.register Server.emptyRegistry "gs-1" "host-1" [] "ready") "gs-1"
    { client_id := "gs-1", hostname := "host-1", capabilities := [],
      status := "ready" }
    rfl

/-- C3 counterexample: registering a station as READY and then pushing a track
command to it yields a record whose tracking target is non-null while its
state is "ready": the claimed invariant fails after this operation sequence. -/
theorem C3_counterexample_push_track_breaks_inv :
    c3_reg "gs-1" = some c3_bad ∧ ¬ Server.trackingInv c3_bad := by
  constructor
  · decide
  · unfold Server.trackingInv c3_bad
    decide

/-- C3 amended: the invariant "tracking target non-null iff state is TRACKING"
is preserved by register (with a non-tracking initial status), by update_state
with internally consistent payloads, and by mark_offline; push_track (which
sets a tracking target without changing the state, see the counterexample) and
update_full_status are excluded. -/
theorem C3_amended_tracking_iff_invariant (ops : List Server.Op)
    (reg : Server.Registry) (hw : ∀ op ∈ ops, Server.wfOp op)
    (hr : ∀ id c, reg id = some c → Server.trackingInv c) :
    ∀ id c, Server.applyOps ops reg id = some c → Server.trackingInv c := by
  induction ops generalizing reg with
  | nil => exact hr
  | cons op ops ih =>
      have hop := hw op (List.mem_cons_self _ _)
      have htail : ∀ o ∈ ops, Server.wfOp o :=
        fun o ho => hw o (List.mem_cons_of_mem _ ho)
      have hstep : ∀ id c, Server.applyOp op reg id = some c →
          Server.trackingInv c := by
        cases op with
        | register id3 host caps st =>
            intro id2 c2 h2
            simp only [Server.applyOp, Server.register] at h2
            simp only [Server.wfOp] at hop
            by_cases hk : id2 = id3
            · rw [if_pos hk] at h2
              cases h2
              unfold Server.trackingInv
              simp [hop]
            · rw [if_neg hk] at h2
              exact hr id2 c2 h2
        | update_state id3 p =>
            intro id2 c2 h2
            simp only [Server.applyOp, Server.update_state] at h2
            simp only [Server.wfOp] at hop
            obtain ⟨hw1, hw2⟩ := hop
            rcases Server.updateAt_eq_some h2 with ⟨c0, _, rfl⟩ | hc
            · unfold Server.update_state_fn Server.trackingInv
              by_cases hpt : p.tracking = true
              · have hst : p.state = "tracking" := hw2.mp hpt
                simp [hpt, hw1, hst]
              · have hst : p.state ≠ "tracking" :=
                  fun hs => hpt (hw2.mpr hs)
                simp [hpt, hw1, hst]
            · exact hr id2 c2 hc
        | mark_offline id3 =>
            intro id2 c2 h2
            simp only [Server.applyOp, Server.mark_offline] at h2
            rcases Server.updateAt_eq_some h2 with ⟨c0, _, rfl⟩ | hc
            · unfold Server.mark_offline_fn Server.trackingInv
              simp
            · exact hr id2 c2 hc
        | update_location id3 g => simp [Server.wfOp] at hop
        | update_calibration id3 cal => simp [Server.wfOp] at hop
        | update_telemetry id3 az el => simp [Server.wfOp] at hop
        | update_full_status id3 p => simp [Server.wfOp] at hop
        | push_track id3 n nm => simp [Server.wfOp] at hop
      exact ih (Server.applyOp op reg) htail hstep

/-- C3 amended witness: register / consistent tracking update / offline mark
from an empty registry; the resulting record satisfies the invariant. -/
theorem C3_amended_tracking_iff_invariant_witness : Server.trackingInv c3w_c := by
  refine C3_amended_tracking_iff_invariant c3w_ops Server.emptyRegistry
    ?_ ?_ "gs-1" c3w_c ?_
  · intro op hop
    fin_cases hop <;> simp [Server.wfOp]
  · intro id c h
    simp [Server.emptyRegistry] at h
  · decide

/-- Python's float modulo by 360 is 360 times the fractional part of x/360. -/
theorem mod360_eq_fract (x : ℝ) : AzEl.mod360 x = 360 * Int.fract (x / 360) := by
  unfold AzEl.mod360 Int.fract
  ring

/-- The normalised azimuth is nonnegative. -/
theorem mod360_nonneg (x : ℝ) : 0 ≤ AzEl.mod360 x := by
  rw [mod360_eq_fract]
  have := Int.fract_nonneg (x / 360)
  linarith

/-- The normalised azimuth is below 360. -/
theorem mod360_lt_360 (x : ℝ) : AzEl.mod360 x < 360 := by
  rw [mod360_eq_fract]
  have := Int.fract_lt_one (x / 360)
  linarith

/-- An arcsine converted to degrees lies in [-90, 90]. -/
theorem degrees_arcsin_mem (u : ℝ) :
    -90 ≤ AzEl.degrees (Real.arcsin u) ∧ AzEl.degrees (Real.arcsin u) ≤ 90 := by
  unfold AzEl.degrees
  have h1 : Real.arcsin u ≤ Real.pi / 2 := Real.arcsin_le_pi_div_two u
  have h2 : -(Real.pi / 2) ≤ Real.arcsin u := Real.neg_pi_div_two_le_arcsin u
  have hpos : (0 : ℝ) < 180 / Real.pi := by positivity
  have he : Real.pi / 2 * (180 / Real.pi) = 90 := by
    field_simp
    ring
  have he2 : -(Real.pi / 2) * (180 / Real.pi) = -90 := by
    rw [neg_mul, he]
  constructor
  · have h3 := mul_le_mul_of_nonneg_right h2 hpos.le
    linarith [h3, he2]
  · have h3 := mul_le_mul_of_nonneg_right h1 hpos.le
    linarith [h3, he]

/-- C6: compute_az_el always returns an azimuth in [0, 360) and an elevation
in [-90, 90]; outside the degenerate branch the azimuth is
atan2(East, -South) in degrees normalised to [0, 360) and the elevation is
asin(Zenith/|range|) in degrees; when the range magnitude is below the 1e-6
epsilon it returns elevation 90 (azimuth 0) instead of failing; and the
device-side copy in tracking.py computes exactly the same function. -/
theorem C6_compute_az_el_contract (la lo al : ℝ) (sat : ℝ × ℝ × ℝ) :
    (0 ≤ (AzEl.compute_az_el la lo al sat).1 ∧
     (AzEl.compute_az_el la lo al sat).1 < 360 ∧
     -90 ≤ (AzEl.compute_az_el la lo al sat).2 ∧
     (AzEl.compute_az_el la lo al sat).2 ≤ 90) ∧
    AzEl.compute_az_el la lo al sat =
      (if AzEl.rng_mag (AzEl.sez la lo al sat) < 1e-6 then ((0 : ℝ), (90 : ℝ))
       else
         (AzEl.mod360 (AzEl.degrees (AzEl.atan2 (AzEl.sez la lo al sat).2.1
             (-(AzEl.sez la lo al sat).1))),
          AzEl.degrees (Real.arcsin ((AzEl.sez la lo al sat).2.2 /
             AzEl.rng_mag (AzEl.sez la lo al sat))))) ∧
    TrackingClient.compute_az_el la lo al sat =
      AzEl.compute_az_el la lo al sat := by
  have heq : AzEl.compute_az_el la lo al sat =
      (if AzEl.rng_mag (AzEl.sez la lo al sat) < 1e-6 then ((0 : ℝ), (90 : ℝ))
       else
         (AzEl.mod360 (AzEl.degrees (AzEl.atan2 (AzEl.sez la lo al sat).2.1
             (-(AzEl.sez la lo al sat).1))),
          AzEl.degrees (Real.arcsin ((AzEl.sez la lo al sat).2.2 /
             AzEl.rng_mag (AzEl.sez la lo al sat))))) := rfl
  refine ⟨?_, heq, rfl⟩
  rw [heq]
  split_ifs with h
  · norm_num
  · exact ⟨mod360_nonneg _, mod360_lt_360 _, (degrees_arcsin_mem _).1,
      (degrees_arcsin_mem _).2⟩

/-- The rise bisection stays inside its initial bracket. -/
theorem bisect_crossing_mem (el : PP.Oracle) (thr : ℚ) :
    ∀ (n : ℕ) (lo hi : ℚ), lo ≤ hi →
      lo ≤ PP.bisect_crossing el thr lo hi n ∧
      PP.bisect_crossing el thr lo hi n ≤ hi := by
  intro n
  induction n with
  | zero =>
      intro lo hi h
      simp only [PP.bisect_crossing]
      constructor <;> linarith
  | succ n ih =>
      intro lo hi h
      have hm1 : lo ≤ (lo + hi) / 2 := by linarith
      have hm2 : (lo + hi) / 2 ≤ hi := by linarith
      simp only [PP.bisect_crossing]
      cases hel : el ((lo + hi) / 2) with
      | none => exact ⟨hm1, hm2⟩
      | some e =>
          by_cases he : thr ≤ e
          · simp only [if_pos he]
            obtain ⟨a, b⟩ := ih lo ((lo + hi) / 2) hm1
            exact ⟨a, b.trans hm2⟩
          · simp only [if_neg he]
            obtain ⟨a, b⟩ := ih ((lo + hi) / 2) hi hm2
            exact ⟨hm1.trans a, b⟩

/-- The set bisection stays inside its initial bracket. -/
theorem bisect_crossing_set_mem (el : PP.Oracle) (thr : ℚ) :
    ∀ (n : ℕ) (lo hi : ℚ), lo ≤ hi →
      lo ≤ PP.bisect_crossing_set el thr lo hi n ∧
      PP.bisect_crossing_set el thr lo hi n ≤ hi := by
  intro n
  induction n with
  | zero =>
      intro lo hi h
      simp only [PP.bisect_crossing_set]
      constructor <;> linarith
  | succ n ih =>
      intro lo hi h
      have hm1 : lo ≤ (lo + hi) / 2 := by linarith
      have hm2 : (lo + hi) / 2 ≤ hi := by linarith
      simp only [PP.bisect_crossing_set]
      cases hel : el ((lo + hi) / 2) with
      | none => exact ⟨hm1, hm2⟩
      | some e =>
          by_cases he : thr ≤ e
          · simp only [if_pos he]
            obtain ⟨a, b⟩ := ih ((lo + hi) / 2) hi hm2
            exact ⟨hm1.trans a, b⟩
          · simp only [if_neg he]
            obtain ⟨a, b⟩ := ih lo ((lo + hi) / 2) hm1
            exact ⟨a, b.trans hm2⟩

/-- The forward set-scan never returns an instant before its start. -/
theorem scan_forward_go_ge (el : PP.Oracle) (thr start end_t : ℚ)
    (hend : start ≤ end_t) :
    ∀ (n : ℕ) (prev t : ℚ), start ≤ prev → prev ≤ t →
      start ≤ PP.scan_forward_go el thr end_t prev t n := by
  intro n
  induction n with
  | zero =>
      intro prev t _ _
      simpa only [PP.scan_forward_go] using hend
  | succ n ih =>
      intro prev t h1 h2
      simp only [PP.scan_forward_go]
      cases hel : el t with
      | none =>
          have hb := (bisect_crossing_set_mem el thr 20 prev t h2).1
          linarith
      | some e =>
          by_cases he : e < thr
          · simp only [if_pos he]
            have hb := (bisect_crossing_set_mem el thr 20 prev t h2).1
            linarith
          · simp only [if_neg he]
            exact ih t (t + 30) (h1.trans h2) (by linarith)

/-- The backward rise-scan never returns an instant after its start. -/
theorem scan_backward_go_le (el : PP.Oracle) (thr start begin_t : ℚ)
    (hbegin : begin_t ≤ start) :
    ∀ (n : ℕ) (prev t : ℚ), prev ≤ start → t ≤ prev →
      PP.scan_backward_go el thr begin_t prev t n ≤ start := by
  intro n
  induction n with
  | zero =>
      intro prev t _ _
      simpa only [PP.scan_backward_go] using hbegin
  | succ n ih =>
      intro prev t h1 h2
      simp only [PP.scan_backward_go]
      cases hel : el t with
      | none =>
          have hb := (bisect_crossing_mem el thr 20 t prev h2).2
          linarith
      | some e =>
          by_cases he : e < thr
          · simp only [if_pos he]
            have hb := (bisect_crossing_mem el thr 20 t prev h2).2
            linarith
          · simp only [if_neg he]
            exact ih t (t - 30) (h2.trans h1) (by linarith)

/-- The set instant produced by _scan_forward_set is at or after `start`. -/
theorem scan_forward_set_ge (el : PP.Oracle) (start thr : ℚ) :
    start ≤ PP.scan_forward_set el start thr := by
  unfold PP.scan_forward_set
  exact scan_forward_go_ge el thr start (start + 21600) (by linarith) 720
    start (start + 30) le_rfl (by linarith)

/-- The rise instant produced by _scan_backward_rise is at or before `start`. -/
theorem scan_backward_rise_le (el : PP.Oracle) (start thr : ℚ) :
    PP.scan_backward_rise el start thr ≤ start := by
  unfold PP.scan_backward_rise
  exact scan_backward_go_le el thr start (start - 7200) (by linarith) 240
    start (start - 30) le_rfl (by linarith)

/-- Destructuring of a find_visible_now entry: it comes from a candidate whose
oracle evaluates at the query instant to the entry's elevation, that elevation
clears the threshold, the rise instant was scanned backward from `now` and the
set instant forward. -/
theorem visible_now_mem_inv (objs : List PP.VisObj) (favIds : List ℤ) (now : ℚ)
    (e : PP.VisEntry) (he : e ∈ PP.find_visible_now objs favIds now) :
    ∃ o ∈ objs, ∃ f, o.sat = some f ∧ f now = some e.el ∧
      PP.MIN_ELEVATION_DEG ≤ e.el ∧
      e.rise = PP.scan_backward_rise f now PP.MIN_ELEVATION_DEG ∧
      e.set = PP.scan_forward_set f now PP.MIN_ELEVATION_DEG := by
  unfold PP.find_visible_now at he
  simp only [List.mem_append, List.mem_mergeSort, List.mem_filter] at he
  have hvis := he.imp And.left And.left
  rw [or_self] at hvis
  rw [List.mem_filterMap] at hvis
  obtain ⟨o, ho, heq⟩ := hvis
  cases hsat : o.sat with
  | none => rw [hsat] at heq; cases heq
  | some f =>
      rw [hsat] at heq
      dsimp only at heq
      cases hnow : f now with
      | none => rw [hnow] at heq; cases heq
      | some e0 =>
          rw [hnow] at heq
          dsimp only at heq
          by_cases hth : e0 < PP.MIN_ELEVATION_DEG
          · rw [if_pos hth] at heq; cases heq
          · rw [if_neg hth] at heq
            injection heq with heq
            subst heq
            exact ⟨o, ho, f, hsat, hnow, not_lt.mp hth, rfl, rfl⟩

/-- A stretch of instants where propagation fails leaves the pass bookkeeping
(open pass and emitted passes) of the find_passes scan untouched. -/
theorem foldl_scan_none (el : PP.Oracle) :
    ∀ (ts : List ℚ) (st : PP.ScanState), (∀ t ∈ ts, el t = none) →
      ((ts.foldl (PP.scan_step el) st).pass_start = st.pass_start ∧
       (ts.foldl (PP.scan_step el) st).passes = st.passes) := by
  intro ts
  induction ts with
  | nil => intro st _; exact ⟨rfl, rfl⟩
  | cons t ts ih =>
      intro st h
      have ht : el t = none := h t (List.mem_cons_self _ _)
      have hstep : PP.scan_step el st t = { st with prev_el := none } := by
        unfold PP.scan_step
        rw [ht]
      rw [List.foldl_cons, hstep]
      exact ih { st with prev_el := none }
        (fun u hu => h u (List.mem_cons_of_mem _ hu))

/-- One scan step only ever appends passes with positive duration recorded as
set minus rise. -/
theorem scan_step_passes_shape (el : PP.Oracle) (st : PP.ScanState) (t : ℚ)
    (hst : ∀ p ∈ st.passes, p.rise < p.set ∧ p.duration_s = p.set - p.rise) :
    ∀ p ∈ (PP.scan_step el st t).passes,
      p.rise < p.set ∧ p.duration_s = p.set - p.rise := by
  intro p hp
  unfold PP.scan_step at hp
  cases hel : el t with
  | none => rw [hel] at hp; exact hst p hp
  | some e =>
      rw [hel] at hp
      dsimp only at hp
      cases hps : st.pass_start with
      | none =>
          rw [hps] at hp
          dsimp only at hp
          split_ifs at hp <;> exact hst p hp
      | some ps =>
          rw [hps] at hp
          dsimp only at hp
          by_cases he : e < PP.MIN_ELEVATION_DEG
          · rw [if_pos he] at hp
            dsimp only at hp
            rw [List.mem_append] at hp
            rcases hp with hp | hp
            · exact hst p hp
            · split_ifs at hp with hd
              · rcases List.mem_singleton.mp hp with rfl
                exact ⟨sub_pos.mp hd, rfl⟩
              · exact absurd hp (List.not_mem_nil p)
          · rw [if_neg he] at hp
            dsimp only at hp
            exact hst p hp

/-- Pass shape is preserved along the whole coarse scan. -/
theorem foldl_scan_passes_shape (el : PP.Oracle) :
    ∀ (ts : List ℚ) (st : PP.ScanState),
      (∀ p ∈ st.passes, p.rise < p.set ∧ p.duration_s = p.set - p.rise) →
      ∀ p ∈ (ts.foldl (PP.scan_step el) st).passes,
        p.rise < p.set ∧ p.duration_s = p.set - p.rise := by
  intro ts
  induction ts with
  | nil => intro st h; exact h
  | cons t ts ih =>
      intro st h
      rw [List.foldl_cons]
      exact ih (PP.scan_step el st t) (scan_step_passes_shape el st t h)

/-- Every pass emitted by find_passes has rise < set and records its duration
as set minus rise. -/
theorem find_passes_mem_shape (sat : Option PP.Oracle) (start : ℚ)
    (hours : ℕ) :
    ∀ p ∈ PP.find_passes sat start hours,
      p.rise < p.set ∧ p.duration_s = p.set - p.rise := by
  intro p hp
  cases sat with
  | none => simp [PP.find_passes] at hp
  | some el =>
      unfold PP.find_passes PP.find_passes_el at hp
      dsimp only at hp
      have hfin := foldl_scan_passes_shape el
        ((List.range (60 * hours + 1)).map (fun k : ℕ => start + 60 * (k : ℚ)))
        ⟨none, none, []⟩ (by intro q hq; exact absurd hq (List.not_mem_nil q))
      cases hps : (((List.range (60 * hours + 1)).map
          (fun k : ℕ => start + 60 * (k : ℚ))).foldl (PP.scan_step el)
          ⟨none, none, []⟩).pass_start with
      | none =>
          rw [hps] at hp
          dsimp only at hp
          exact hfin p hp
      | some ps =>
          rw [hps] at hp
          dsimp only at hp
          rw [List.mem_append] at hp
          rcases hp with hp | hp
          · exact hfin p hp
          · split_ifs at hp with hd
            · rcases List.mem_singleton.mp hp with rfl
              exact ⟨sub_pos.mp hd, rfl⟩
            · exact absurd hp (List.not_mem_nil p)

/-- An object whose propagation fails at every instant yields no passes. -/
theorem find_passes_all_none (el : PP.Oracle) (start : ℚ) (hours : ℕ)
    (h : ∀ t, el t = none) :
    PP.find_passes (some el) start hours = [] := by
  unfold PP.find_passes PP.find_passes_el
  dsimp only
  obtain ⟨hps, hpl⟩ := foldl_scan_none el
    ((List.range (60 * hours + 1)).map (fun k : ℕ => start + 60 * (k : ℚ)))
    ⟨none, none, []⟩ (fun t _ => h t)
  rw [hps]
  dsimp only
  exact hpl

/-- When the object is visible above threshold at the window start and
propagation fails at every later evaluated instant, find_passes still emits
one pass stretching from the start all the way to the window end. -/
theorem find_passes_fail_after_start (el : PP.Oracle) (start : ℚ) (hours : ℕ)
    (hh : 0 < hours) (e0 : ℚ) (h0 : el start = some e0)
    (hth : PP.MIN_ELEVATION_DEG ≤ e0)
    (hfail : ∀ k : ℕ, 1 ≤ k → el (start + 60 * (k : ℚ)) = none) :
    PP.find_passes (some el) start hours =
      [{ rise := start, set := start + 3600 * (hours : ℚ),
         max_el := PP.find_max_elevation el start (start + 3600 * (hours : ℚ)),
         duration_s := start + 3600 * (hours : ℚ) - start }] := by
  have hg0 : start + 60 * ((0 : ℕ) : ℚ) = start := by push_cast; ring
  have hel0 : el (start + 60 * ((0 : ℕ) : ℚ)) = some e0 := by rw [hg0, h0]
  have hstep : PP.scan_step el ⟨none, none, []⟩ (start + 60 * ((0 : ℕ) : ℚ)) =
      ⟨some (start + 60 * ((0 : ℕ) : ℚ)), some e0, []⟩ := by
    unfold PP.scan_step
    rw [hel0]
    dsimp only
    rw [if_pos hth]
  unfold PP.find_passes PP.find_passes_el
  dsimp only
  rw [List.range_succ_eq_map, List.map_cons, List.map_map, List.foldl_cons,
    hstep]
  have hrest : ∀ t ∈ (List.range (60 * hours)).map
      ((fun k : ℕ => start + 60 * (k : ℚ)) ∘ Nat.succ), el t = none := by
    intro t ht
    rw [List.mem_map] at ht
    obtain ⟨k, _, rfl⟩ := ht
    exact hfail (Nat.succ k) (Nat.succ_le_succ (Nat.zero_le k))
  obtain ⟨hps, hpl⟩ := foldl_scan_none el _ _ hrest
  rw [hps]
  dsimp only
  rw [hpl]
  have hdur : 0 < start + 3600 * (hours : ℚ) - (start + 60 * ((0 : ℕ) : ℚ)) := by
    push_cast
    have h1 : (1 : ℚ) ≤ (hours : ℚ) := by exact_mod_cast hh
    nlinarith
  rw [if_pos hdur]
  simp only [List.nil_append, List.cons.injEq, and_true]
  rw [hg0]

/-- The single pass the C4 oracle produces over a one-hour window, in closed
form. -/
theorem c4_pass_eq :
    PP.find_passes (some c4_el) 0 1 = [c4_pass] := by
  have h := find_passes_fail_after_start c4_el 0 1 (by norm_num) 10
    (by unfold c4_el; rw [if_pos rfl]) (by unfold PP.MIN_ELEVATION_DEG; norm_num)
    (by
      intro k hk
      unfold c4_el
      rw [if_neg]
      intro hc
      have hk1 : (1 : ℚ) ≤ (k : ℚ) := by exact_mod_cast hk
      have : (0 : ℚ) + 60 * (k : ℚ) ≥ 60 := by nlinarith
      rw [hc] at this
      norm_num at this)
  rw [h]
  have h1 : (0 : ℚ) + 3600 * ((1 : ℕ) : ℚ) = 3600 := by push_cast; ring
  rw [h1]
  have h2 : (3600 : ℚ) - 0 = 3600 := by norm_num
  rw [h2]
  rfl

/-- C4 counterexample: the C4 oracle is propagable at the window start only,
yet find_passes emits a pass [0, 3600] whose interior instants (e.g. 60 s and
1800 s in) and whose very set bound are instants where propagation failed —
the caller does receive a pass fabricated across failing instants. -/
theorem C4_counterexample_pass_spans_failures :
    PP.find_passes (some c4_el) 0 1 = [c4_pass] ∧
    c4_pass.rise = 0 ∧ c4_pass.set = 3600 ∧ c4_pass.duration_s = 3600 ∧
    c4_el 0 = some 10 ∧ c4_el 60 = none ∧ c4_el 1800 = none ∧
    c4_el 3600 = none := by
  refine ⟨c4_pass_eq, rfl, rfl, rfl, rfl, ?_, ?_, ?_⟩ <;>
    · unfold c4_el
      rw [if_neg]
      norm_num

/-- C4 amended: an object that cannot be propagated at all is silently
excluded — an invalid element set or an everywhere-failing oracle yields no
passes, and the visible-now query only returns entries whose object propagated
at the query instant — and every emitted pass has positive duration recorded
as set minus rise; however, propagation failures at instants inside an
already-started pass do not abort it (see the counterexample), so a returned
pass's interior and window-boundary set bound may cover failing instants. -/
theorem C4_amended_nonpropagable_excluded (start : ℚ) (hours : ℕ) :
    PP.find_passes none start hours = [] ∧
    (∀ el : PP.Oracle, (∀ t, el t = none) →
        PP.find_passes (some el) start hours = []) ∧
    (∀ sat p, p ∈ PP.find_passes sat start hours →
        p.rise < p.set ∧ p.duration_s = p.set - p.rise) ∧
    (∀ objs favIds now e, e ∈ PP.find_visible_now objs favIds now →
        ∃ o ∈ objs, ∃ f, o.sat = some f ∧ f now = some e.el) := by
  refine ⟨rfl, fun el h => find_passes_all_none el start hours h,
    fun sat p hp => find_passes_mem_shape sat start hours p hp,
    fun objs favIds now e he => ?_⟩
  obtain ⟨o, ho, f, hsat, hnow, _, _, _⟩ :=
    visible_now_mem_inv objs favIds now e he
  exact ⟨o, ho, f, hsat, hnow⟩

/-- C4 amended witness: an invalid element set and an everywhere-failing
oracle both give empty results; the concrete C4 pass has positive duration
recorded as set minus rise; the concrete C5 visible-now entry comes from an
object that propagated at the query instant. -/
theorem C4_amended_nonpropagable_excluded_witness :
    PP.find_passes none 0 24 = [] ∧
    PP.find_passes (some (fun _ => none)) 0 24 = [] ∧
    ((0 : ℚ) < 3600 ∧ (3600 : ℚ) = 3600 - 0) ∧
    ∃ o ∈ [c5_obj], ∃ f, o.sat = some f ∧ f 0 = some c5_entry.el := by
  have h24 := C4_amended_nonpropagable_excluded 0 24
  have h1 := C4_amended_nonpropagable_excluded 0 1
  refine ⟨h24.1, h24.2.1 _ (fun t => rfl), ?_, ?_⟩
  · have hmem : c4_pass ∈ PP.find_passes (some c4_el) 0 1 := by
      rw [c4_pass_eq]
      exact List.mem_singleton.mpr rfl
    exact h1.2.2.1 (some c4_el) c4_pass hmem
  · refine h24.2.2.2 [c5_obj] [] 0 c5_entry ?_
    simp only [PP.find_visible_now]
    rw [List.mem_append]
    right
    rw [List.mem_mergeSort]
    exact List.mem_singleton.mpr rfl

/-- C5: every entry returned by find_visible_now stems from a candidate object
whose elevation at the query instant is exactly the entry's elevation, that
elevation is at or above the minimum-elevation threshold, and the entry's
window brackets the query instant: rise ≤ now ≤ set. -/
theorem C5_visible_now_el_and_window (objs : List PP.VisObj) (favIds : List ℤ)
    (now : ℚ) (e : PP.VisEntry)
    (he : e ∈ PP.find_visible_now objs favIds now) :
    PP.MIN_ELEVATION_DEG ≤ e.el ∧ e.rise ≤ now ∧ now ≤ e.set ∧
    ∃ o ∈ objs, ∃ f, o.sat = some f ∧ f now = some e.el := by
  obtain ⟨o, ho, f, hsat, hnow, hth, hrise, hset⟩ :=
    visible_now_mem_inv objs favIds now e he
  refine ⟨hth, ?_, ?_, o, ho, f, hsat, hnow⟩
  · rw [hrise]
    exact scan_backward_rise_le f now _
  · rw [hset]
    exact scan_forward_set_ge f now _

/-- C5 witness: a constantly-visible object queried at instant 0 is returned
with its elevation 10 clearing the threshold and a window around the query
instant. -/
theorem C5_visible_now_el_and_window_witness :
    PP.MIN_ELEVATION_DEG ≤ c5_entry.el ∧ c5_entry.rise ≤ 0 ∧
    (0 : ℚ) ≤ c5_entry.set ∧
    ∃ o ∈ [c5_obj], ∃ f, o.sat = some f ∧ f 0 = some c5_entry.el :=
  C5_visible_now_el_and_window [c5_obj] [] 0 c5_entry (by
    simp only [PP.find_visible_now]
    rw [List.mem_append]
    right
    rw [List.mem_mergeSort]
    exact List.mem_singleton.mpr rfl)
